import Mathlib

/-!
Shallow embedding of `salesforce_pipeline.py` (class `SalesforceDataFetcher`).

The Python program is a linear pipeline: load credentials from a YAML config
file, authenticate against Salesforce, fetch records for one table with a
generated SOQL query, and write the result to a CSV file.  The external
collaborators (file system, YAML parser, the `simple_salesforce` client and
`pandas`) are modelled as oracles carried in a `World`; the instance state of
the Python object is an explicit `FetcherState` record; every function returns
alongside its result the list of externally visible effects it performed.
-/

namespace SalesforcePipeline

/-- Python truthiness for a value that is either a `bool` or a `str`
(`connect_to_salesforce` returns `True` on success and an error string on
failure).  A string is truthy exactly when it is non-empty. -/
inductive BoolOrStr where
  | bool (b : Bool)
  | str (s : String)
deriving DecidableEq

def BoolOrStr.truthy : BoolOrStr → Bool
  | .bool b => b
  | .str s => !s.data.isEmpty

/-- Python truthiness of an optional-string instance attribute
(`None` and `""` are falsy). -/
def optStrTruthy : Option String → Bool
  | none => false
  | some s => !s.data.isEmpty

/-- Substring test used to state claims about error-message phrasing
(character-level search, structural recursion). -/
def leadsWith : List Char → List Char → Bool
  | _, [] => true
  | [], _ :: _ => false
  | c :: cs, p :: ps => c = p && leadsWith cs ps

def hasSub : List Char → List Char → Bool
  | [], pat => pat.isEmpty
  | c :: cs, pat => leadsWith (c :: cs) pat || hasSub cs pat

def containsSub (s pat : String) : Bool := hasSub s.data pat.data

/-! ### The parsed config file (YAML mapping), `load_credentials` -/

/-- A parsed YAML mapping section: ordered key/value pairs, string values. -/
abbrev ConfigSection := List (String × String)

/-- A parsed two-level YAML document, as produced by `yaml.safe_load`. -/
abbrev ParsedConfig := List (String × ConfigSection)

/-- Outcome of `open(config_path)` + `yaml.safe_load` — the external part of
`load_credentials`'s `try` block: the file may be missing
(`FileNotFoundError`), malformed (`yaml.YAMLError`), raise some other
exception, or parse to a mapping. -/
inductive ConfigOutcome where
  | fileNotFound (e : String)
  | yamlError (e : String)
  | otherRaise (e : String)
  | parsed (c : ParsedConfig)

/-- Python `d[k]` on a dict: the value, or a `KeyError` whose `str()` is the
key wrapped in single quotes. -/
def dictGet {α : Type} (d : List (String × α)) (k : String) : Except String α :=
  match d.lookup k with
  | some v => .ok v
  | none => .error ("\x27" ++ k ++ "\x27")

structure Creds where
  uname : String
  pwd : String
  sftoken : String
deriving DecidableEq

/-- Embeds `load_credentials` (source lines 21-41): reads
`config["salesforce"]["uname" | "pwd" | "sftoken"]`, converting each failure
of the `try` block into the corresponding error string; on success the
credentials are stored and Python returns `None`. -/
def load_credentials (c : ConfigOutcome) : Except String Creds :=
  match c with
  | .fileNotFound e => .error ("Error: Config file not found: " ++ e)
  | .yamlError e => .error ("Error: YAML parsing error: " ++ e)
  | .otherRaise e => .error ("Error loading credentials: " ++ e)
  | .parsed cfg =>
    match (do
      let sec ← dictGet cfg "salesforce"
      let u ← dictGet sec "uname"
      let p ← dictGet sec "pwd"
      let t ← dictGet sec "sftoken"
      pure (Creds.mk u p t) : Except String Creds) with
    | .ok creds => .ok creds
    | .error e => .error ("Error: Missing required key in config file: " ++ e)

/-! ### The Salesforce client handle, `connect_to_salesforce`, `fetch_data` -/

/-- One record returned by the remote service: an ordered mapping from field
name to (stringified) value, possibly including the service-internal
`attributes` entry. -/
abbrev SfRecord := List (String × String)

/-- A live `simple_salesforce.Salesforce` handle, modelled by its two
operations used here: `describe` (field-name list for a table) and `query`
(record list for a SOQL string); each may raise. -/
structure SfHandle where
  describeFields : String → Except String (List String)
  queryResp : String → Except String (List SfRecord)

/-- Externally visible effects of a run. -/
inductive Effect where
  | openConfig
  | authenticate
  | describe (table : String)
  | executeQuery (q : String)
  | writeFile (name : String) (content : String)
deriving DecidableEq

def connectErrMsg (e : String) : String :=
  "Error connecting to Salesforce please check if you have valid credentials: " ++ e

/-- Embeds `connect_to_salesforce` (source lines 43-54): the `Salesforce(...)`
constructor either yields a handle (assigned to `self.sf`, return `True`) or
raises (return the error *string*; `self.sf` keeps its previous value because
the assignment never happened). -/
def connect_to_salesforce (auth : Except String SfHandle) (sfOld : Option SfHandle) :
    BoolOrStr × Option SfHandle :=
  match auth with
  | .ok h => (.bool true, some h)
  | .error e => (.str (connectErrMsg e), sfOld)

/-- The `str(AttributeError)` text raised when `self.sf` is `None` and
`self.sf.__getattr__(...)` is evaluated. -/
def noneTypeDescribeMsg : String :=
  "\x27NoneType\x27 object has no attribute \x27__getattr__\x27"

/-- The `str(AttributeError)` text raised when `self.sf` is `None` and
`self.sf.query(...)` is evaluated. -/
def noneTypeQueryMsg : String :=
  "\x27NoneType\x27 object has no attribute \x27query\x27"

/-- SOQL query construction (source lines 76-78):
`f"SELECT {', '.join(fields)} FROM {table_name}"`. -/
def buildQuery (fields : List String) (table : String) : String :=
  "SELECT " ++ String.intercalate ", " fields ++ " FROM " ++ table

/-- Field resolution in `fetch_data` (source lines 66-74): when the stored
field list is empty, describe the object and take every field name; a `None`
handle raises an `AttributeError` locally (no remote call), and a failing
describe is caught and wrapped. -/
def resolveFields (sf : Option SfHandle) (table : String) (fields0 : List String) :
    Except String (List String) × List Effect :=
  if fields0.isEmpty then
    match sf with
    | none =>
      (.error ("Error retrieving fields for " ++ table ++ ": " ++ noneTypeDescribeMsg), [])
    | some h =>
      match h.describeFields table with
      | .ok fs => (.ok fs, [.describe table])
      | .error e =>
        (.error ("Error retrieving fields for " ++ table ++ ": " ++ e), [.describe table])
  else (.ok fields0, [])

/-! ### The pandas DataFrame model -/

/-- A `pandas.DataFrame`: named columns and rows of optional cells
(`none` models a missing value / NaN). -/
structure DataFrame where
  cols : List String
  rows : List (List (Option String))
deriving DecidableEq

def firstDedupAux : List String → List String → List String
  | [], _ => []
  | k :: ks, seen =>
    if k ∈ seen then firstDedupAux ks seen else k :: firstDedupAux ks (k :: seen)

/-- Keep the first occurrence of each element (pandas column order for a
list of record dicts: order of first appearance). -/
def firstDedup (l : List String) : List String := firstDedupAux l []

/-- Model of `pd.DataFrame(records)`: columns are the record keys in order of first
appearance; each record becomes one row, missing keys become NaN. -/
def pdDataFrame (records : List SfRecord) : DataFrame :=
  let cols := firstDedup ((records.map (fun r => r.map Prod.fst)).flatten)
  { cols := cols, rows := records.map (fun r => cols.map (fun c => r.lookup c)) }

/-- Model of `df.drop(labels=label, axis=1, errors="ignore")`: remove every column
with that label together with its cells. -/
def dropCol (df : DataFrame) (label : String) : DataFrame :=
  { cols := df.cols.filter (fun c => c != label),
    rows := df.rows.map (fun r =>
      ((df.cols.zip r).filter (fun p => p.1 != label)).map Prod.snd) }

/-- Embeds `fetch_data` (source lines 56-86): guard on the table name, resolve the
field list, build the SOQL query, execute it, and post-process the response
into a DataFrame with the `attributes` column dropped.  A `None` handle makes
the query call raise locally; a failing execution is caught and wrapped. -/
def fetch_data (sf : Option SfHandle) (table : String) (fields0 : List String) :
    Except String DataFrame × List Effect :=
  if table = "" then
    (.error "Error: Table name not provided. Please set the table name before fetching data.",
     [])
  else
    match resolveFields sf table fields0 with
    | (.error e, effs) => (.error e, effs)
    | (.ok fields, effs) =>
      let query := buildQuery fields table
      match sf with
      | none => (.error ("Error executing query: " ++ noneTypeQueryMsg), effs)
      | some h =>
        match h.queryResp query with
        | .ok records =>
          (.ok (dropCol (pdDataFrame records) "attributes"), effs ++ [.executeQuery query])
        | .error e =>
          (.error ("Error executing query: " ++ e), effs ++ [.executeQuery query])

/-! ### CSV encoding (`df.to_csv(file, index=False)`) and `save_to_csv` -/

/-- How pandas renders one cell: a missing value (NaN) becomes the empty
string, a string value is written as is (no quoting is needed when the value
contains neither the delimiter nor a line break). -/
def csvCell : Option String → String
  | none => ""
  | some v => v

/-- Modelled from the spec: the delimited tabular encoding produced by the
external `pandas.DataFrame.to_csv(index=False)` call — a header row of the
field names joined by commas, then one comma-joined data row per record,
each line terminated by a newline (spec §4.4, §6). -/
def csvHeaderData (cols : List String) : List Char :=
  List.intercalate [','] (cols.map String.data)

def csvRowData (cells : List (Option String)) : List Char :=
  List.intercalate [','] (cells.map (fun c => (csvCell c).data))

def csvLinesData (df : DataFrame) : List (List Char) :=
  csvHeaderData df.cols :: df.rows.map csvRowData

def toCsvData (df : DataFrame) : List Char :=
  ((csvLinesData df).map (fun l => l ++ ['\n'])).flatten

def to_csv (df : DataFrame) : String := String.mk (toCsvData df)

/-- Modelled from the spec: the re-reader of §8.4's round-trip property (the
repository itself contains no CSV reader) — split the file into
newline-terminated lines, split each line on commas. -/
def parseCsvData (cs : List Char) : List (List String) :=
  ((cs.splitOn '\n').dropLast).map (fun line => (line.splitOn ',').map (fun c => String.mk c))

/-- The external world of one run: the config-file read outcome, the
`Salesforce(...)` constructor outcome, and the file-system write outcome. -/
structure World where
  config : ConfigOutcome
  auth : Except String SfHandle
  write : String → String → Except String Unit

/-- Default output name resolution in `save_to_csv` (source lines 98-99):
`if not self.file_name: self.file_name = f"{self.table_name}.csv"`. -/
def resolveFileName (table_name : String) (file_name : Option String) : String :=
  match file_name with
  | some f => if f.data.isEmpty then table_name ++ ".csv" else f
  | none => table_name ++ ".csv"

/-- Embeds `save_to_csv` (source lines 88-105): default the file name, attempt
`df.to_csv(self.file_name, index=False)`, return a success or error message.
Also returns the updated `self.file_name` and the write attempt. -/
def save_to_csv (w : World) (table_name : String) (file_name : Option String)
    (df : DataFrame) : String × Option String × List Effect :=
  let fname := resolveFileName table_name file_name
  match w.write fname (to_csv df) with
  | .ok _ => ("Data saved to " ++ fname, some fname, [.writeFile fname (to_csv df)])
  | .error e =>
    ("Error saving data to file: " ++ e, some fname, [.writeFile fname (to_csv df)])

/-! ### Instance state and the orchestrator `fetch_and_save_data` -/

/-- The mutable instance attributes of a `SalesforceDataFetcher` object
(source lines 14-19 plus the attributes assigned later). -/
structure FetcherState where
  config_path : String
  domain : String
  sf : Option SfHandle
  creds : Option Creds
  table_name : Option String
  file_name : Option String
  fields : List String

/-- Embeds `__init__` (source lines 6-19). -/
def initState (config_path : String) (domain : String) : FetcherState :=
  { config_path := config_path, domain := domain, sf := none, creds := none,
    table_name := none, file_name := none, fields := [] }

/-- Argument processing of `fetch_and_save_data` (source lines 119-128):
the table name is stored (the caller already checked it is truthy); `fields`
and `file_name` overwrite the stored attributes only when not `None`. -/
def applyArgs (st : FetcherState) (table_name : Option String)
    (fields : Option (List String)) (file_name : Option String) : FetcherState :=
  let st1 := { st with table_name := table_name }
  let st2 := match fields with
    | some f => { st1 with fields := f }
    | none => st1
  match file_name with
  | some f => { st2 with file_name := some f }
  | none => st2

/-- Embeds `fetch_and_save_data` (source lines 107-141): guard the table name,
store the arguments, load credentials (any error string is returned as is),
connect (the *truthiness* of the returned value is tested, exactly as
`if not self.connect_to_salesforce():` does), fetch, and save. -/
def fetch_and_save_data (w : World) (st : FetcherState) (table_name : Option String)
    (fields : Option (List String)) (file_name : Option String) :
    String × FetcherState × List Effect :=
  if optStrTruthy table_name then
    let st3 := applyArgs st table_name fields file_name
    match load_credentials w.config with
    | .error msg => (msg, st3, [.openConfig])
    | .ok creds =>
      let st4 := { st3 with creds := some creds }
      let cres := connect_to_salesforce w.auth st4.sf
      let st5 := { st4 with sf := cres.2 }
      if cres.1.truthy then
        match fetch_data st5.sf (st5.table_name.getD "") st5.fields with
        | (.ok df, effF) =>
          let sres := save_to_csv w (st5.table_name.getD "") st5.file_name df
          (sres.1, { st5 with file_name := sres.2.1 },
           [.openConfig, .authenticate] ++ effF ++ sres.2.2)
        | (.error msg, effF) => (msg, st5, [.openConfig, .authenticate] ++ effF)
      else ("Error connecting to Salesforce.", st5, [.openConfig, .authenticate])
  else ("Error: Please provide a table name for fetching data first.", st, [])

/-- Variant of `fetch_and_save_data` with the `if not self.connect_to_salesforce():`
branch (source lines 134-135) deleted — used to state that this branch is
dead code. -/
def fetch_and_save_data_noguard (w : World) (st : FetcherState) (table_name : Option String)
    (fields : Option (List String)) (file_name : Option String) :
    String × FetcherState × List Effect :=
  if optStrTruthy table_name then
    let st3 := applyArgs st table_name fields file_name
    match load_credentials w.config with
    | .error msg => (msg, st3, [.openConfig])
    | .ok creds =>
      let st4 := { st3 with creds := some creds }
      let cres := connect_to_salesforce w.auth st4.sf
      let st5 := { st4 with sf := cres.2 }
      match fetch_data st5.sf (st5.table_name.getD "") st5.fields with
      | (.ok df, effF) =>
        let sres := save_to_csv w (st5.table_name.getD "") st5.file_name df
        (sres.1, { st5 with file_name := sres.2.1 },
         [.openConfig, .authenticate] ++ effF ++ sres.2.2)
      | (.error msg, effF) => (msg, st5, [.openConfig, .authenticate] ++ effF)
  else ("Error: Please provide a table name for fetching data first.", st, [])

/-! ### Concrete stub collaborators for witnesses and counterexamples -/

/-- A stub remote service: two fields, two records, accepting any query. -/
def stubHandle : SfHandle :=
  { describeFields := fun _ => .ok ["Id", "Name"],
    queryResp := fun _ => .ok [[("Id", "1"), ("Name", "Acme")],
                               [("Id", "2"), ("Name", "Globex")]] }

def goodConfig : ParsedConfig :=
  [("salesforce", [("uname", "user"), ("pwd", "secret"), ("sftoken", "tok")])]

/-- A world in which every stage succeeds. -/
def okWorld : World :=
  { config := .parsed goodConfig, auth := .ok stubHandle, write := fun _ _ => .ok () }

/-- A world in which the `Salesforce(...)` constructor raises. -/
def authFailWorld : World :=
  { config := .parsed goodConfig, auth := .error "INVALID_LOGIN",
    write := fun _ _ => .ok () }

/-! ## Helper lemmas -/

theorem optStrTruthy_some_of_ne (t : String) (ht : ¬ t = "") :
    optStrTruthy (some t) = true := by
  simp only [optStrTruthy, Bool.not_eq_eq_eq_not, Bool.not_true, List.isEmpty_eq_false]
  intro hd
  exact ht (by cases t with | mk d => simp_all)

/-! ## Claim theorems -/

/-- C5: a call to `fetch_and_save_data` with an empty or absent `table_name`
fails immediately with an error message, leaves the instance state untouched,
and performs no effect at all: the config file is never opened and the remote
service is never contacted. -/
theorem run_empty_table_fails_before_any_stage (w : World) (st : FetcherState)
    (fields : Option (List String)) (file_name : Option String) (t : Option String)
    (h : optStrTruthy t = false) :
    fetch_and_save_data w st t fields file_name =
      ("Error: Please provide a table name for fetching data first.", st, []) := by
  simp [fetch_and_save_data, h]

theorem run_empty_table_fails_before_any_stage_w :
    optStrTruthy (some "") = false ∧
    fetch_and_save_data okWorld (initState "config.yml" "test") (some "") none none =
      ("Error: Please provide a table name for fetching data first.",
       initState "config.yml" "test", []) :=
  ⟨rfl, run_empty_table_fails_before_any_stage okWorld (initState "config.yml" "test")
    none none (some "") rfl⟩

/-- C6: for a config file that parses as a mapping but lacks one of the three
required credential keys (the first absent one among `uname`, `pwd`,
`sftoken`), `load_credentials` fails with a missing-key message that names
that key (the Python `KeyError` text, the key in single quotes). -/
theorem load_credentials_missing_key_names_key (cfg : ParsedConfig)
    (sec : ConfigSection) (k : String)
    (hsec : cfg.lookup "salesforce" = some sec)
    (hmiss :
      (k = "uname" ∧ sec.lookup "uname" = none) ∨
      (k = "pwd" ∧ (∃ u, sec.lookup "uname" = some u) ∧ sec.lookup "pwd" = none) ∨
      (k = "sftoken" ∧ (∃ u, sec.lookup "uname" = some u) ∧
        (∃ p, sec.lookup "pwd" = some p) ∧ sec.lookup "sftoken" = none)) :
    load_credentials (.parsed cfg) =
      .error ("Error: Missing required key in config file: \x27" ++ k ++ "\x27") := by
  rcases hmiss with ⟨rfl, h1⟩ | ⟨rfl, ⟨u, hu⟩, h2⟩ | ⟨rfl, ⟨u, hu⟩, ⟨p, hp⟩, h3⟩ <;>
    simp [load_credentials, dictGet, hsec, *, Bind.bind, Except.bind]

theorem load_credentials_missing_key_names_key_w :
    load_credentials (.parsed [("salesforce", [("uname", "u"), ("sftoken", "t")])]) =
      .error ("Error: Missing required key in config file: \x27" ++ "pwd" ++ "\x27") :=
  load_credentials_missing_key_names_key
    [("salesforce", [("uname", "u"), ("sftoken", "t")])]
    [("uname", "u"), ("sftoken", "t")] "pwd" rfl
    (Or.inr (Or.inl ⟨rfl, ⟨"u", rfl⟩, rfl⟩))

/-- C7: when the stored field list is empty, the effective field list of the
executed query is exactly the field-name list returned by the describe call:
`resolveFields` yields that list, and the one query `fetch_data` executes is
built from it. -/
theorem empty_fields_resolved_by_describe (h : SfHandle) (t : String)
    (fs : List String) (ht : ¬ t = "") (hd : h.describeFields t = .ok fs) :
    resolveFields (some h) t [] = (.ok fs, [.describe t]) ∧
    (fetch_data (some h) t []).2 = [.describe t, .executeQuery (buildQuery fs t)] := by
  have h1 : resolveFields (some h) t [] = (.ok fs, [.describe t]) := by
    simp [resolveFields, hd]
  refine ⟨h1, ?_⟩
  simp only [fetch_data, ht, if_false, h1]
  cases hq : h.queryResp (buildQuery fs t) <;> simp [hq]

theorem empty_fields_resolved_by_describe_w :
    resolveFields (some stubHandle) "Account" [] =
      (.ok ["Id", "Name"], [.describe "Account"]) ∧
    (fetch_data (some stubHandle) "Account" []).2 =
      [.describe "Account", .executeQuery (buildQuery ["Id", "Name"] "Account")] :=
  empty_fields_resolved_by_describe stubHandle "Account" ["Id", "Name"]
    (by decide) rfl

/-- C8: for a non-empty effective field list, the executed query string is
exactly `SELECT f1, f2, ..., fn FROM t` — the fields joined in order by a
comma and a space, with no further clause of any kind appended. -/
theorem nonempty_fields_query_exact (h : SfHandle) (t : String)
    (fields : List String) (ht : ¬ t = "") (hf : fields ≠ []) :
    (fetch_data (some h) t fields).2 =
      [.executeQuery ("SELECT " ++ String.intercalate ", " fields ++ " FROM " ++ t)] := by
  have h1 : resolveFields (some h) t fields = (.ok fields, []) := by
    simp [resolveFields, hf]
  simp only [fetch_data, ht, if_false, h1]
  cases hq : h.queryResp (buildQuery fields t) <;> simp [hq, buildQuery]

theorem nonempty_fields_query_exact_w :
    (fetch_data (some stubHandle) "Account" ["Id", "Name"]).2 =
      [.executeQuery
        ("SELECT " ++ String.intercalate ", " ["Id", "Name"] ++ " FROM " ++ "Account")] :=
  nonempty_fields_query_exact stubHandle "Account" ["Id", "Name"]
    (by decide) (by decide)

/-- C10: the branch returning the literal `"Error connecting to Salesforce."`
is dead code: `connect_to_salesforce` returns `True` on success and a
non-empty (hence truthy) error string on failure, so the guard
`not self.connect_to_salesforce()` never fires, and deleting that branch
leaves the behaviour of `fetch_and_save_data` unchanged on every input. -/
theorem connect_guard_dead_code :
    (∀ (auth : Except String SfHandle) (sfOld : Option SfHandle),
        (connect_to_salesforce auth sfOld).1.truthy = true) ∧
    (∀ (w : World) (st : FetcherState) (tn : Option String)
        (fs : Option (List String)) (fn : Option String),
        fetch_and_save_data w st tn fs fn = fetch_and_save_data_noguard w st tn fs fn) := by
  have htr : ∀ (auth : Except String SfHandle) (sfOld : Option SfHandle),
      (connect_to_salesforce auth sfOld).1.truthy = true := by
    intro auth sfOld
    cases auth with
    | ok h => rfl
    | error e =>
      simp only [connect_to_salesforce, BoolOrStr.truthy, connectErrMsg,
        Bool.not_eq_eq_eq_not, Bool.not_true, List.isEmpty_eq_false, String.data_append]
      intro hd
      have : ("Error connecting to Salesforce please check if you have valid credentials: ").data ≠ ([] : List Char) := by decide
      simp_all
  refine ⟨htr, ?_⟩
  intro w st tn fs fn
  unfold fetch_and_save_data fetch_and_save_data_noguard
  by_cases h : optStrTruthy tn = true
  · simp only [h, if_true]
    cases hc : load_credentials w.config with
    | error msg => rfl
    | ok creds => simp [htr w.auth]
  · simp [h]

/-- C1 (failing input): in a world where the `Salesforce(...)` constructor
raises, a fresh run is *not* aborted at the authentication stage — the run
falls through to `fetch_data` (whose `AttributeError` message is what the
caller receives), and the authentication error string is not surfaced. -/
theorem auth_failure_falls_through_to_fetch :
    (fetch_and_save_data authFailWorld (initState "config.yml" "test")
        (some "Account") (some ["Id"]) none).1 =
      "Error executing query: " ++ noneTypeQueryMsg ∧
    (fetch_and_save_data authFailWorld (initState "config.yml" "test")
        (some "Account") (some ["Id"]) none).1 ≠ connectErrMsg "INVALID_LOGIN" ∧
    (fetch_and_save_data authFailWorld (initState "config.yml" "test")
        (some "Account") (some ["Id"]) none).2.2 =
      [.openConfig, .authenticate] := by
  refine ⟨by decide, by decide, by decide⟩

/-- C2 (failing input): when authentication raises, the message the caller
receives comes from `fetch_data`'s local `AttributeError`, does **not**
contain the phrase `"connecting to Salesforce"`, and no file is written
(the effect trace holds no write). -/
theorem auth_failure_message_lacks_connect_phrase :
    (fetch_and_save_data authFailWorld (initState "config.yml" "test")
        (some "Account") none none).1 =
      "Error retrieving fields for Account: " ++ noneTypeDescribeMsg ∧
    containsSub (fetch_and_save_data authFailWorld (initState "config.yml" "test")
        (some "Account") none none).1 "connecting to Salesforce" = false ∧
    (fetch_and_save_data authFailWorld (initState "config.yml" "test")
        (some "Account") none none).2.2 = [.openConfig, .authenticate] ∧
    ∀ (name content : String), Effect.writeFile name content ∉
      (fetch_and_save_data authFailWorld (initState "config.yml" "test")
        (some "Account") none none).2.2 := by
  refine ⟨by decide, by decide, by decide, ?_⟩
  intro name content hmem
  have heff : (fetch_and_save_data authFailWorld (initState "config.yml" "test")
      (some "Account") none none).2.2 = [.openConfig, .authenticate] := by decide
  rw [heff] at hmem
  simp at hmem

/-- C4 (counterexample): two first runs that differ only in their `fields`
argument, followed by the *same* second call (`table_name="B"`, no fields, no
file name), execute different queries in the second run — and both second
runs write to the first run's `a.csv`, not to `B.csv`.  The second run's
effective query and output path are therefore not determined solely by the
second call's arguments. -/
theorem second_run_not_determined_by_its_args :
    Effect.executeQuery "SELECT Id FROM B" ∈
      (fetch_and_save_data okWorld
        (fetch_and_save_data okWorld (initState "config.yml" "test")
          (some "A") (some ["Id"]) (some "a.csv")).2.1
        (some "B") none none).2.2 ∧
    Effect.executeQuery "SELECT Name FROM B" ∈
      (fetch_and_save_data okWorld
        (fetch_and_save_data okWorld (initState "config.yml" "test")
          (some "A") (some ["Name"]) (some "a.csv")).2.1
        (some "B") none none).2.2 ∧
    Effect.writeFile "a.csv" "Id,Name\n1,Acme\n2,Globex\n" ∈
      (fetch_and_save_data okWorld
        (fetch_and_save_data okWorld (initState "config.yml" "test")
          (some "A") (some ["Id"]) (some "a.csv")).2.1
        (some "B") none none).2.2 := by
  refine ⟨by decide, by decide, by decide⟩

/-- C4 (amended): a run stores its arguments into the instance — the table
name always, `fields` and `file_name` only when they are not `None` — so a
second run with `fields=None` and `file_name=None` reuses the previous run's
stored field list and output path: its executed query is built from the
stored fields and its write goes to the stored file name. -/
theorem second_run_reuses_stored_fields_and_file (w : World) (st : FetcherState)
    (t f : String) (creds : Creds) (h : SfHandle) (recs : List SfRecord)
    (ht : ¬ t = "")
    (hc : load_credentials w.config = .ok creds)
    (ha : w.auth = .ok h)
    (hfld : st.fields ≠ [])
    (hfile : st.file_name = some f) (hf : ¬ f = "")
    (hq : h.queryResp (buildQuery st.fields t) = .ok recs) :
    (applyArgs st (some t) none none).fields = st.fields ∧
    (applyArgs st (some t) none none).file_name = st.file_name ∧
    Effect.executeQuery (buildQuery st.fields t) ∈
      (fetch_and_save_data w st (some t) none none).2.2 ∧
    Effect.writeFile f (to_csv (dropCol (pdDataFrame recs) "attributes")) ∈
      (fetch_and_save_data w st (some t) none none).2.2 := by
  have htr := optStrTruthy_some_of_ne t ht
  have hres : resolveFields (some h) t st.fields = (.ok st.fields, []) := by
    simp [resolveFields, hfld]
  have hfd : fetch_data (some h) t st.fields =
      (.ok (dropCol (pdDataFrame recs) "attributes"),
       [.executeQuery (buildQuery st.fields t)]) := by
    simp [fetch_data, ht, hres, hq]
  have hfn : resolveFileName t (some f) = f := by
    simp only [resolveFileName]
    have : f.data ≠ ([] : List Char) := by
      intro hd
      exact hf (by cases f with | mk d => simp_all)
    simp [List.isEmpty_eq_false.2 this]
  refine ⟨rfl, by simp [applyArgs], ?_, ?_⟩ <;>
  · simp only [fetch_and_save_data, htr, if_true, hc, applyArgs, connect_to_salesforce, ha]
    simp only [hfile, hfd, Option.getD_some, save_to_csv, hfn, BoolOrStr.truthy, if_true]
    cases hw : w.write f (to_csv (dropCol (pdDataFrame recs) "attributes")) <;> simp

/-- A fetcher whose previous run stored `fields=["Id"]` and
`file_name="a.csv"`. -/
def carriedState : FetcherState :=
  { config_path := "config.yml", domain := "test", sf := none, creds := none,
    table_name := some "A", file_name := some "a.csv", fields := ["Id"] }

theorem second_run_reuses_stored_fields_and_file_w :
    (applyArgs carriedState (some "B") none none).fields = carriedState.fields ∧
    (applyArgs carriedState (some "B") none none).file_name = carriedState.file_name ∧
    Effect.executeQuery (buildQuery carriedState.fields "B") ∈
      (fetch_and_save_data okWorld carriedState (some "B") none none).2.2 ∧
    Effect.writeFile "a.csv"
        (to_csv (dropCol (pdDataFrame [[("Id", "1"), ("Name", "Acme")],
                                       [("Id", "2"), ("Name", "Globex")]]) "attributes")) ∈
      (fetch_and_save_data okWorld carriedState (some "B") none none).2.2 :=
  second_run_reuses_stored_fields_and_file okWorld carriedState "B" "a.csv"
    (Creds.mk "user" "secret" "tok") stubHandle
    [[("Id", "1"), ("Name", "Acme")], [("Id", "2"), ("Name", "Globex")]]
    (by decide) rfl rfl (by decide) rfl (by decide) rfl

theorem zip_map_self {α β : Type} (f : α → β) (l : List α) :
    l.zip (l.map f) = l.map (fun a => (a, f a)) := by
  induction l with
  | nil => rfl
  | cons x xs ih => simp [ih]

theorem filter_map_pair_snd {α β : Type} [DecidableEq α] (f : α → β) (label : α)
    (l : List α) :
    ((l.map (fun a => (a, f a))).filter (fun p => p.1 != label)).map Prod.snd =
      (l.filter (fun a => a != label)).map f := by
  induction l with
  | nil => rfl
  | cons x xs ih =>
    by_cases hx : x = label <;> simp [hx, ih]

/-- C3: a successful `fetch_data` materializes the entire response of the one
query execution: the resulting DataFrame is the full record list with only
the service-internal `attributes` column removed — one row per returned
record, in order, each row holding that record's values on the surviving
columns.  No truncation happens between the query response and the caller. -/
theorem fetch_data_materializes_all_records (h : SfHandle) (t : String)
    (fields0 effF : List String) (records : List SfRecord) (effs : List Effect)
    (ht : ¬ t = "")
    (hres : resolveFields (some h) t fields0 = (.ok effF, effs))
    (hq : h.queryResp (buildQuery effF t) = .ok records) :
    (fetch_data (some h) t fields0).1 =
      .ok (dropCol (pdDataFrame records) "attributes") ∧
    (dropCol (pdDataFrame records) "attributes").rows.length = records.length ∧
    (dropCol (pdDataFrame records) "attributes").rows =
      records.map (fun r =>
        ((pdDataFrame records).cols.filter (fun c => c != "attributes")).map
          (fun c => r.lookup c)) := by
  refine ⟨by simp [fetch_data, ht, hres, hq], ?_, ?_⟩
  · simp [dropCol, pdDataFrame]
  · simp only [dropCol, pdDataFrame, List.map_map]
    refine List.map_congr_left ?_
    intro r _
    simp only [Function.comp]
    rw [zip_map_self, filter_map_pair_snd]

theorem fetch_data_materializes_all_records_w :
    (fetch_data (some stubHandle) "Account" ["Id", "Name"]).1 =
      .ok (dropCol (pdDataFrame [[("Id", "1"), ("Name", "Acme")],
                                 [("Id", "2"), ("Name", "Globex")]]) "attributes") ∧
    (dropCol (pdDataFrame [[("Id", "1"), ("Name", "Acme")],
                           [("Id", "2"), ("Name", "Globex")]]) "attributes").rows.length =
      [[("Id", "1"), ("Name", "Acme")], [("Id", "2"), ("Name", "Globex")]].length ∧
    (dropCol (pdDataFrame [[("Id", "1"), ("Name", "Acme")],
                           [("Id", "2"), ("Name", "Globex")]]) "attributes").rows =
      [[("Id", "1"), ("Name", "Acme")], [("Id", "2"), ("Name", "Globex")]].map (fun r =>
        ((pdDataFrame [[("Id", "1"), ("Name", "Acme")],
                       [("Id", "2"), ("Name", "Globex")]]).cols.filter
            (fun c => c != "attributes")).map (fun c => r.lookup c)) :=
  fetch_data_materializes_all_records stubHandle "Account" ["Id", "Name"] ["Id", "Name"]
    [[("Id", "1"), ("Name", "Acme")], [("Id", "2"), ("Name", "Globex")]] []
    (by decide) rfl rfl

theorem mk_data (s : String) : String.mk s.data = s := by cases s; rfl

theorem mem_intersperse {α : Type} {sep x : α} {xs : List α}
    (h : x ∈ xs.intersperse sep) : x = sep ∨ x ∈ xs := by
  induction xs with
  | nil => simp [List.intersperse] at h
  | cons a as ih =>
    cases as with
    | nil => simp at h; exact Or.inr (by simp [h])
    | cons b bs =>
      rw [List.intersperse_cons_cons] at h
      rcases List.mem_cons.1 h with h1 | h1
      · exact Or.inr (by simp [h1])
      · rcases List.mem_cons.1 h1 with h2 | h2
        · exact Or.inl h2
        · rcases ih h2 with h3 | h3
          · exact Or.inl h3
          · exact Or.inr (List.mem_cons_of_mem _ h3)

theorem mem_intercalate_single {c sep : Char} {ls : List (List Char)}
    (h : c ∈ List.intercalate [sep] ls) : c = sep ∨ ∃ l, l ∈ ls ∧ c ∈ l := by
  rw [List.intercalate] at h
  rcases List.mem_flatten.1 h with ⟨l, hl, hcl⟩
  rcases mem_intersperse hl with h1 | h1
  · subst h1; simp at hcl; exact Or.inl hcl
  · exact Or.inr ⟨l, h1, hcl⟩

theorem flatten_map_append_singleton (c : Char) (ls : List (List Char)) :
    ((ls.map (fun l => l ++ [c])).flatten) = [c].intercalate (ls ++ [[]]) := by
  induction ls with
  | nil => rfl
  | cons l ls ih =>
    cases ls with
    | nil => simp [List.intercalate]
    | cons l2 ls2 =>
      simp only [List.map_cons, List.flatten_cons, ih]
      simp only [List.intercalate, List.intersperse_cons_cons, List.flatten_cons,
        List.append_assoc]
      rw [List.intercalate] at ih
      simpa using ih

theorem splitOn_flatten_append (c : Char) (ls : List (List Char))
    (h : ∀ l ∈ ls, c ∉ l) :
    ((ls.map (fun l => l ++ [c])).flatten).splitOn c = ls ++ [[]] := by
  rw [flatten_map_append_singleton]
  refine List.splitOn_intercalate (ls ++ [[]]) c ?_ (by simp)
  intro l hl
  rcases List.mem_append.1 hl with h1 | h1
  · exact h l h1
  · simp at h1; subst h1; simp

/-- C9: writing a DataFrame whose column names and cell values are free of
delimiter characters produces a file whose first line is exactly the
comma-joined column list, followed by one comma-joined data row per record in
order; re-reading the file (splitting lines, then cells) reconstructs the
columns and all rows exactly.  `save_to_csv` performs exactly that one write
and reports the resolved file name. -/
theorem save_to_csv_roundtrip (w : World) (t : String) (fn : Option String)
    (df : DataFrame)
    (hcols : df.cols ≠ [])
    (hcsep : ∀ c ∈ df.cols, ',' ∉ c.data ∧ '\n' ∉ c.data)
    (hrows : ∀ r ∈ df.rows, r.length = df.cols.length ∧
      ∀ v ∈ r, v ≠ none ∧ ',' ∉ (csvCell v).data ∧ '\n' ∉ (csvCell v).data)
    (hw : w.write (resolveFileName t fn) (to_csv df) = .ok ()) :
    save_to_csv w t fn df =
      ("Data saved to " ++ resolveFileName t fn, some (resolveFileName t fn),
        [.writeFile (resolveFileName t fn) (to_csv df)]) ∧
    ((to_csv df).data.splitOn '\n').head? = some (csvHeaderData df.cols) ∧
    parseCsvData (to_csv df).data = df.cols :: df.rows.map (fun r => r.map csvCell) ∧
    (parseCsvData (to_csv df).data).length = df.rows.length + 1 := by
  have hnl : ∀ l ∈ csvLinesData df, '\n' ∉ l := by
    intro l hl
    rcases List.mem_cons.1 hl with h1 | h1
    · subst h1
      intro hmem
      rcases mem_intercalate_single hmem with h2 | ⟨d, hd, hcd⟩
      · exact absurd h2 (by decide)
      · rcases List.mem_map.1 hd with ⟨cname, hcname, rfl⟩
        exact (hcsep cname hcname).2 hcd
    · rcases List.mem_map.1 h1 with ⟨r, hr, rfl⟩
      intro hmem
      rcases mem_intercalate_single hmem with h2 | ⟨d, hd, hcd⟩
      · exact absurd h2 (by decide)
      · rcases List.mem_map.1 hd with ⟨v, hv, rfl⟩
        exact ((hrows r hr).2 v hv).2.2 hcd
  have hsplit : (to_csv df).data.splitOn '\n' = csvLinesData df ++ [[]] :=
    splitOn_flatten_append '\n' (csvLinesData df) hnl
  have hheader : (csvHeaderData df.cols).splitOn ',' = df.cols.map String.data := by
    refine List.splitOn_intercalate _ ',' ?_ ?_
    · intro l hl
      rcases List.mem_map.1 hl with ⟨cname, hcname, rfl⟩
      exact (hcsep cname hcname).1
    · simpa using hcols
  have hrowline : ∀ r ∈ df.rows,
      (csvRowData r).splitOn ',' = r.map (fun v => (csvCell v).data) := by
    intro r hr
    have hlen := (hrows r hr).1
    refine List.splitOn_intercalate _ ',' ?_ ?_
    · intro l hl
      rcases List.mem_map.1 hl with ⟨v, hv, rfl⟩
      exact ((hrows r hr).2 v hv).2.1
    · simp only [ne_eq, List.map_eq_nil_iff]
      intro h0
      rw [h0] at hlen
      simp at hlen
      exact hcols (List.length_eq_zero.1 hlen.symm)
  have hparse : parseCsvData (to_csv df).data =
      df.cols :: df.rows.map (fun r => r.map csvCell) := by
    rw [parseCsvData, hsplit, List.dropLast_concat]
    simp only [csvLinesData, List.map_cons, List.map_map]
    refine congrArg₂ List.cons ?_ ?_
    · rw [hheader, List.map_map]
      refine (List.map_congr_left ?_).trans (List.map_id df.cols)
      intro cname _
      exact mk_data cname
    · refine List.map_congr_left ?_
      intro r hr
      simp only [Function.comp]
      rw [hrowline r hr, List.map_map]
      refine List.map_congr_left ?_
      intro v _
      exact mk_data (csvCell v)
  refine ⟨by simp [save_to_csv, hw], ?_, hparse, ?_⟩
  · rw [hsplit]; simp [csvLinesData]
  · rw [hparse]; simp

/-- A small concrete table used to witness the CSV round-trip. -/
def csvTestDf : DataFrame :=
  { cols := ["a", "b", "c"],
    rows := [[some "1", some "2", some "3"], [some "4", some "5", some "6"]] }

theorem save_to_csv_roundtrip_w :
    save_to_csv okWorld "T" (some "out.csv") csvTestDf =
      ("Data saved to " ++ resolveFileName "T" (some "out.csv"),
        some (resolveFileName "T" (some "out.csv")),
        [.writeFile (resolveFileName "T" (some "out.csv")) (to_csv csvTestDf)]) ∧
    ((to_csv csvTestDf).data.splitOn '\n').head? = some (csvHeaderData csvTestDf.cols) ∧
    parseCsvData (to_csv csvTestDf).data =
      csvTestDf.cols :: csvTestDf.rows.map (fun r => r.map csvCell) ∧
    (parseCsvData (to_csv csvTestDf).data).length = csvTestDf.rows.length + 1 :=
  save_to_csv_roundtrip okWorld "T" (some "out.csv") csvTestDf (by decide)
    (by decide) (by decide) rfl

end SalesforcePipeline
